import Mathlib

/-! Salary calculator and take-home pay estimator.

A shallow embedding of the tax computations of the two Lightning web
components `salaryCalculator` and `takeHomePayEstimator`.

Numbers: a finite JavaScript number is modelled by an exact rational (the
`Money` of the specification); `Infinity`, which occurs only as the upper
bound of the last tax tier, is `none` in an `Option ℚ`; `NaN`, which occurs
only as the result of `parseFloat`, is `none` in the parse result.
-/

namespace JS

/-- The function `Math.round`: the nearest integer, a tie going towards
positive infinity. -/
def mathRound (x : ℚ) : ℚ := ((Int.floor (x + 1 / 2) : ℤ) : ℚ)

/-- The function `Math.min(a, b)` for a finite `a` and a `b` that may be
`Infinity` (`none`). -/
def minInf (a : ℚ) (b : Option ℚ) : ℚ :=
  match b with
  | none => a
  | some b => min a b

/-- The expression `a - b` for an `a` that may be `Infinity` (`none`). -/
def subInf (a : Option ℚ) (b : ℚ) : Option ℚ :=
  match a with
  | none => none
  | some a => some (a - b)

end JS

namespace SalaryCalculator

/-- One entry of `TAX_CONSTANTS.TAX_BRACKETS`; `max = none` is `Infinity`. -/
structure Bracket where
  min : ℚ
  max : Option ℚ
  rate : ℚ
deriving DecidableEq

def STANDARD_DEDUCTION : ℚ := 13850
def SOCIAL_SECURITY_RATE : ℚ := 62 / 1000
def SOCIAL_SECURITY_WAGE_BASE : ℚ := 160200
def MEDICARE_RATE : ℚ := 145 / 10000

def TAX_BRACKETS : List Bracket :=
  [ { min := 0, max := some 11000, rate := 10 / 100 },
    { min := 11000, max := some 44725, rate := 12 / 100 },
    { min := 44725, max := some 95375, rate := 22 / 100 },
    { min := 95375, max := some 182050, rate := 24 / 100 },
    { min := 182050, max := some 231250, rate := 32 / 100 },
    { min := 231250, max := some 578125, rate := 35 / 100 },
    { min := 578125, max := none, rate := 37 / 100 } ]

/-- The `for (const bracket of ...)` loop of `calculateFederalTax`, from the
brackets still to visit and the current `totalTax` and `remainingIncome`;
it returns both at the end of the loop. -/
def bracketLoop (taxableIncome : ℚ) : List Bracket → ℚ → ℚ → ℚ × ℚ
  | [], totalTax, remainingIncome => (totalTax, remainingIncome)
  | bracket :: rest, totalTax, remainingIncome =>
    if remainingIncome ≤ 0 then (totalTax, remainingIncome)
    else
      let bracketWidth := JS.subInf bracket.max bracket.min
      let taxableInBracket := JS.minInf remainingIncome bracketWidth
      if taxableIncome > bracket.min then
        bracketLoop taxableIncome rest
          (totalTax + taxableInBracket * bracket.rate) (remainingIncome - taxableInBracket)
      else
        bracketLoop taxableIncome rest totalTax remainingIncome

/-- The method `calculateFederalTax(grossSalary)` of `salaryCalculator`. -/
def calculateFederalTax (grossSalary : ℚ) : ℚ :=
  let taxableIncome := max 0 (grossSalary - STANDARD_DEDUCTION)
  if taxableIncome ≤ 0 then 0
  else
    let totalTax := (bracketLoop taxableIncome TAX_BRACKETS 0 taxableIncome).1
    JS.mathRound (totalTax * 100) / 100

/-- The method `calculateSocialSecurityTax(grossSalary)`. -/
def calculateSocialSecurityTax (grossSalary : ℚ) : ℚ :=
  let taxableWages := min grossSalary SOCIAL_SECURITY_WAGE_BASE
  JS.mathRound (taxableWages * SOCIAL_SECURITY_RATE * 100) / 100

/-- The method `calculateMedicareTax(grossSalary)`. -/
def calculateMedicareTax (grossSalary : ℚ) : ℚ :=
  JS.mathRound (grossSalary * MEDICARE_RATE * 100) / 100

/-- An error object as `handleError` reads it: `error.body?.message` and
`error.message`, each possibly missing. -/
structure JSError where
  bodyMessage : Option String
  message : Option String
deriving DecidableEq

/-- The object the Apex method `calculateSalaryBreakdown` resolves to; a
field that is absent or `null` is `none`. -/
structure Response where
  federalTax : Option ℚ
  socialSecurityTax : Option ℚ
  medicareTax : Option ℚ
  totalTax : Option ℚ
  takeHomeYearly : Option ℚ
  takeHomeMonthly : Option ℚ
  takeHomeBiWeekly : Option ℚ
  takeHomeWeekly : Option ℚ
deriving DecidableEq

/-- What `await calculateSalaryBreakdown(...)` does: it yields a response
object, or yields `null` (reading a field of it then throws the given
`TypeError`), or throws. -/
inductive ServerOutcome where
  | resolved (result : Response)
  | resolvedNull (typeError : JSError)
  | rejected (error : JSError)
deriving DecidableEq

/-- A call of one of the three client-side tax methods, with its argument. -/
inductive TaxCall where
  | federal (grossSalary : ℚ)
  | socialSecurity (grossSalary : ℚ)
  | medicare (grossSalary : ℚ)
deriving DecidableEq

/-- A dispatched `ShowToastEvent`. -/
structure Toast where
  title : String
  message : String
  variant : String
deriving DecidableEq

/-- The component: its tracked fields and `calculationTimeout`, together
with the part of the environment its methods act on: the timers set by
`setTimeout` that have neither fired nor been cleared (each runs
`calculateTakeHome`), the next timer handle, the log of calls of the tax
methods and the toasts dispatched. -/
structure State where
  recordId : Option String
  salary : ℚ
  federalTax : ℚ
  socialSecurityTax : ℚ
  medicareTax : ℚ
  takeHomeYearly : ℚ
  takeHomeMonthly : ℚ
  isCalculating : Bool
  calculationError : Option String
  selectedMethod : String
  calculationTimeout : Option Nat
  pendingTimers : List Nat
  nextTimerId : Nat
  taxCalls : List TaxCall
  toasts : List Toast
deriving DecidableEq

/-- The component as constructed: the field initialisers of the class. -/
def initial (recordId : Option String) : State :=
  { recordId := recordId, salary := 0, federalTax := 0, socialSecurityTax := 0,
    medicareTax := 0, takeHomeYearly := 0, takeHomeMonthly := 0, isCalculating := false,
    calculationError := none, selectedMethod := "client", calculationTimeout := none,
    pendingTimers := [], nextTimerId := 1, taxCalls := [], toasts := [] }

/-- The method `resetCalculations()`. -/
def resetCalculations (st : State) : State :=
  { st with federalTax := 0, socialSecurityTax := 0, medicareTax := 0,
            takeHomeYearly := 0, takeHomeMonthly := 0 }

/-- The method `showToast(title, message, variant)`. -/
def showToast (title message variant : String) (st : State) : State :=
  { st with toasts := st.toasts ++ [{ title := title, message := message, variant := variant }] }

/-- The value of `a || b` for a string `a` that may be missing: a missing or
empty string is falsy. -/
def orElse (a : Option String) (b : String) : String :=
  match a with
  | some s => if s = "" then b else s
  | none => b

/-- The method `handleError(title, error)`. -/
def handleError (title : String) (error : JSError) (st : State) : State :=
  let message :=
    orElse error.bodyMessage (orElse error.message "An unexpected error occurred")
  showToast title message "error" { st with calculationError := some message }

/-- The method `calculateClientSide()`. -/
def calculateClientSide (st : State) : State :=
  let st := { st with federalTax := calculateFederalTax st.salary,
                      taxCalls := st.taxCalls ++ [TaxCall.federal st.salary] }
  let st := { st with socialSecurityTax := calculateSocialSecurityTax st.salary,
                      taxCalls := st.taxCalls ++ [TaxCall.socialSecurity st.salary] }
  let st := { st with medicareTax := calculateMedicareTax st.salary,
                      taxCalls := st.taxCalls ++ [TaxCall.medicare st.salary] }
  let totalTax := st.federalTax + st.socialSecurityTax + st.medicareTax
  let st := { st with takeHomeYearly := st.salary - totalTax }
  { st with takeHomeMonthly := st.takeHomeYearly / 12 }

/-- The method `calculateServerSide()`, given what the awaited Apex call
does; an exception leaves the state as it was. -/
def calculateServerSide (outcome : ServerOutcome) (st : State) : Except JSError State :=
  match outcome with
  | ServerOutcome.rejected error => Except.error error
  | ServerOutcome.resolvedNull typeError => Except.error typeError
  | ServerOutcome.resolved result =>
    Except.ok { st with federalTax := result.federalTax.getD 0,
                        socialSecurityTax := result.socialSecurityTax.getD 0,
                        medicareTax := result.medicareTax.getD 0,
                        takeHomeYearly := result.takeHomeYearly.getD 0,
                        takeHomeMonthly := result.takeHomeMonthly.getD 0 }

/-- The method `calculateTakeHome()`, run to completion. -/
def calculateTakeHome (outcome : ServerOutcome) (st : State) : State :=
  if st.salary ≤ 0 then resetCalculations st
  else
    let st := { st with isCalculating := true, calculationError := none }
    let attempt : Except JSError State :=
      if st.selectedMethod = "client" then Except.ok (calculateClientSide st)
      else calculateServerSide outcome st
    let st :=
      match attempt with
      | Except.ok st' => st'
      | Except.error error => handleError "Calculation error" error st
    { st with isCalculating := false }

/-- The method `debounceCalculation()`: a pending timer is cleared when
`calculationTimeout` is truthy, and a new one is set. -/
def debounceCalculation (st : State) : State :=
  let pending :=
    match st.calculationTimeout with
    | some id => if id ≠ 0 then st.pendingTimers.erase id else st.pendingTimers
    | none => st.pendingTimers
  { st with pendingTimers := pending ++ [st.nextTimerId],
            calculationTimeout := some st.nextTimerId,
            nextTimerId := st.nextTimerId + 1 }

/-- The callback of the timer `id` runs, if that timer is still pending. -/
def timerFires (id : Nat) (outcome : ServerOutcome) (st : State) : State :=
  if id ∈ st.pendingTimers then
    calculateTakeHome outcome { st with pendingTimers := st.pendingTimers.erase id }
  else st

/-- The method `handleSalaryChange(event)`; `value` is
`parseFloat(event.target.value)`, `none` when that is `NaN`. -/
def handleSalaryChange (value : Option ℚ) (st : State) : State :=
  let st := { st with salary := value.getD 0, calculationError := none }
  if st.salary < 0 then
    { st with calculationError := some "Salary cannot be negative" }
  else if st.salary > 10000000 then
    { st with calculationError := some "Salary amount seems unusually high" }
  else debounceCalculation st

/-- The method `handleMethodChange(event)`; `value` is `event.detail.value`. -/
def handleMethodChange (value : String) (outcome : ServerOutcome) (st : State) : State :=
  let st := { st with selectedMethod := value }
  if st.salary > 0 then calculateTakeHome outcome st else st

/-- The method `handleReset()`. -/
def handleReset (st : State) : State :=
  { st with salary := 0, federalTax := 0, socialSecurityTax := 0, medicareTax := 0,
            takeHomeYearly := 0, takeHomeMonthly := 0, calculationError := none }

/-- The part of the taxable income `T` that lies inside a tier. -/
def tierAmount (T : ℚ) (b : Bracket) : ℚ := max 0 (JS.minInf T b.max - b.min)

/-- The sum over the tiers of `rate * max(0, min(T, max) - min)`. -/
def tierSum (T : ℚ) (bs : List Bracket) : ℚ :=
  (bs.map (fun b => b.rate * tierAmount T b)).sum

/-- Tiers that start at `m`, each one starting where the one before ends;
an unbounded tier is the last one. -/
def Contiguous : ℚ → List Bracket → Prop
  | _, [] => True
  | m, b :: rest =>
    b.min = m ∧
      match b.max with
      | none => rest = []
      | some M => m < M ∧ Contiguous M rest


end SalaryCalculator

namespace TakeHomePayEstimator

/-- One entry of the local `brackets` table; `limit = none` is `Infinity`. -/
structure Bracket where
  limit : Option ℚ
  rate : ℚ
deriving DecidableEq

def brackets : List Bracket :=
  [ { limit := some 11000, rate := 10 / 100 },
    { limit := some 44725, rate := 12 / 100 },
    { limit := some 95375, rate := 22 / 100 },
    { limit := some 182100, rate := 24 / 100 },
    { limit := some 231250, rate := 32 / 100 },
    { limit := some 578125, rate := 35 / 100 },
    { limit := none, rate := 37 / 100 } ]

/-- The `for (const bracket of brackets)` loop of `calculateFederalTax`, from
the brackets still to visit and the current `tax` and `prevLimit`. -/
def bracketLoop (income : ℚ) : List Bracket → ℚ → ℚ → ℚ
  | [], tax, _ => tax
  | bracket :: rest, tax, prevLimit =>
    match bracket.limit with
    | some limit =>
      if income > limit then
        bracketLoop income rest (tax + (limit - prevLimit) * bracket.rate) limit
      else
        tax + (income - prevLimit) * bracket.rate
    | none => tax + (income - prevLimit) * bracket.rate

/-- The method `calculateFederalTax(income)` of `takeHomePayEstimator`. -/
def calculateFederalTax (income : ℚ) : ℚ :=
  bracketLoop income brackets 0 0

/-- Tiers above `prev` with ascending limits and rates that are not
negative; nothing is asked of the tiers after an unbounded one. -/
def Ascending : ℚ → List Bracket → Prop
  | _, [] => True
  | prev, b :: rest =>
    0 ≤ b.rate ∧
      match b.limit with
      | none => True
      | some L => prev ≤ L ∧ Ascending L rest


end TakeHomePayEstimator

namespace JS

/-- The method `Number.prototype.toFixed(fractionDigits)` on a finite number:
the sign, then the integer `n` nearest to `x * 10 ^ fractionDigits` (the
larger one of two equally near), written in decimal with a point before its
last `fractionDigits` digits. From `10 ^ 21` on the method returns
`ToString(x)`, the exponent form, which is not fixed-point: that is `none`. -/
def toFixed (fractionDigits : Nat) (x : ℚ) : Option String :=
  let s := if x < 0 then "-" else ""
  let x := if x < 0 then -x else x
  if 10 ^ 21 ≤ x then none
  else
    let n := (Int.floor (x * 10 ^ fractionDigits + 1 / 2)).toNat
    let m := Nat.toDigits 10 n
    let m :=
      if fractionDigits ≠ 0 then
        let m := List.replicate (fractionDigits + 1 - m.length) '0' ++ m
        let k := m.length
        List.take (k - fractionDigits) m ++ '.' :: List.drop (k - fractionDigits) m
      else m
    some (s ++ String.mk m)

/-- The order of bounds that may be `Infinity` (`none`): `a < b`. -/
def ltInf : Option ℚ → Option ℚ → Prop
  | some a, some b => a < b
  | some _, none => True
  | none, _ => False

end JS

namespace SalaryCalculator

end SalaryCalculator

namespace SalaryCalculationService

/-- Modelled from the spec: the Apex class `SalaryCalculationService` is not
among the sources; this is the rounding `round(x, 2)` of sections 4.1 and 4.2,
to 2 decimal places, a half going away from zero. -/
def round2 (x : ℚ) : ℚ :=
  if 0 ≤ x then ((Int.floor (x * 100 + 1 / 2) : ℤ) : ℚ) / 100
  else -(((Int.floor (-x * 100 + 1 / 2) : ℤ) : ℚ) / 100)

/-- Modelled from the spec: the Apex class `SalaryCalculationService` is not
among the sources; this is `computeBracketTax(income, deduction, brackets)` of
section 4.1: the taxable income is `max(0, income - deduction)`, the result is
0 when that is 0, and otherwise the amount inside each tier
`[lowerBound, upperBound)` is taxed at the tier's rate, the sum rounded to 2
decimal places. -/
def computeBracketTax (income deduction : ℚ) (brackets : List SalaryCalculator.Bracket) : ℚ :=
  let taxable := max 0 (income - deduction)
  if taxable = 0 then 0
  else round2 (SalaryCalculator.tierSum taxable brackets)

/-- Modelled from the spec: the `PayrollTaxRule` of section 3, a flat rate
with a wage base that may be unbounded (`none`). -/
structure PayrollTaxRule where
  rate : ℚ
  wageBase : Option ℚ
deriving DecidableEq

/-- Modelled from the spec: the Apex class `SalaryCalculationService` is not
among the sources; this is `computeFlatTax(gross, rule)` of section 4.2:
`round(taxableWages * rule.rate, 2)` with `taxableWages = min(gross, wageBase)`
when the rule has a wage base and `gross` otherwise. -/
def computeFlatTax (gross : ℚ) (rule : PayrollTaxRule) : ℚ :=
  let taxableWages := JS.minInf gross rule.wageBase
  round2 (taxableWages * rule.rate)

/-- Modelled from the spec: the two validation errors of section 7 that
`calculateBreakdown` fails with. -/
inductive ValidationError where
  | NegativeSalaryError
  | UnusuallyHighSalaryError
deriving DecidableEq

/-- Modelled from the spec: the `TaxBreakdown` of section 3. -/
structure TaxBreakdown where
  federalTax : ℚ
  socialSecurityTax : ℚ
  medicareTax : ℚ
  totalTax : ℚ
  takeHomeYearly : ℚ
  takeHomeMonthly : ℚ
  takeHomeBiWeekly : ℚ
  takeHomeWeekly : ℚ
deriving DecidableEq

/-- Modelled from the spec: the Apex class `SalaryCalculationService` is not
among the sources; this is `calculateBreakdown` of section 4.3, with the
ceiling of 10,000,000 as a rejection: validation, the all-zero breakdown for
salary 0, and otherwise the three taxes, their total and the take-home
figures as quotients of the yearly one, not rounded again. -/
def calculateBreakdown (salary : ℚ) (brackets : List SalaryCalculator.Bracket)
    (standardDeduction : ℚ) (cappedRate uncappedRate : PayrollTaxRule) :
    Except ValidationError TaxBreakdown :=
  if salary < 0 then Except.error ValidationError.NegativeSalaryError
  else if salary > 10000000 then Except.error ValidationError.UnusuallyHighSalaryError
  else if salary = 0 then
    Except.ok { federalTax := 0, socialSecurityTax := 0, medicareTax := 0, totalTax := 0,
                takeHomeYearly := 0, takeHomeMonthly := 0, takeHomeBiWeekly := 0,
                takeHomeWeekly := 0 }
  else
    let federalTax := computeBracketTax salary standardDeduction brackets
    let socialSecurityTax := computeFlatTax salary cappedRate
    let medicareTax := computeFlatTax salary uncappedRate
    let totalTax := federalTax + socialSecurityTax + medicareTax
    let takeHomeYearly := salary - totalTax
    Except.ok { federalTax := federalTax, socialSecurityTax := socialSecurityTax,
                medicareTax := medicareTax, totalTax := totalTax,
                takeHomeYearly := takeHomeYearly, takeHomeMonthly := takeHomeYearly / 12,
                takeHomeBiWeekly := takeHomeYearly / 26, takeHomeWeekly := takeHomeYearly / 52 }

/-- Modelled from the spec: the Apex method
`SalaryCalculationService.calculateSalaryBreakdown` is not among the sources;
this is the delegated authority of section 6, `calculateBreakdown` on rate
tables equivalent to the component's, answering with every field of the
breakdown or failing with the validation error. -/
def calculateSalaryBreakdown (salary : ℚ) : SalaryCalculator.ServerOutcome :=
  match calculateBreakdown salary SalaryCalculator.TAX_BRACKETS
      SalaryCalculator.STANDARD_DEDUCTION
      { rate := SalaryCalculator.SOCIAL_SECURITY_RATE,
        wageBase := some SalaryCalculator.SOCIAL_SECURITY_WAGE_BASE }
      { rate := SalaryCalculator.MEDICARE_RATE, wageBase := none } with
  | Except.ok b =>
    SalaryCalculator.ServerOutcome.resolved
      { federalTax := some b.federalTax, socialSecurityTax := some b.socialSecurityTax,
        medicareTax := some b.medicareTax, totalTax := some b.totalTax,
        takeHomeYearly := some b.takeHomeYearly, takeHomeMonthly := some b.takeHomeMonthly,
        takeHomeBiWeekly := some b.takeHomeBiWeekly, takeHomeWeekly := some b.takeHomeWeekly }
  | Except.error ValidationError.NegativeSalaryError =>
    SalaryCalculator.ServerOutcome.rejected
      { bodyMessage := some "NegativeSalaryError", message := none }
  | Except.error ValidationError.UnusuallyHighSalaryError =>
    SalaryCalculator.ServerOutcome.rejected
      { bodyMessage := some "UnusuallyHighSalaryError", message := none }

end SalaryCalculationService

namespace TakeHomePayEstimator

/-- The component: `recordId` and `salary`. -/
structure State where
  recordId : Option String
  salary : ℚ
deriving DecidableEq

/-- The component as constructed: `salary = 50000`. -/
def initial (recordId : Option String) : State :=
  { recordId := recordId, salary := 50000 }

/-- The method `handleSalaryChange(event)`; `value` is
`Number(event.target.value)`, a number. -/
def handleSalaryChange (value : ℚ) (st : State) : State :=
  { st with salary := value }

/-- The number that the getter `federalTax` renders:
`parseFloat(this.calculateFederalTax(this.salary))`, where `parseFloat` of a
number is that number. -/
def federalTaxAmount (st : State) : ℚ := calculateFederalTax st.salary

/-- The getter `federalTax`. -/
def federalTax (st : State) : Option String := JS.toFixed 2 (federalTaxAmount st)

/-- The number that the getter `socialSecurity` renders: `this.salary * 0.062`. -/
def socialSecurityAmount (st : State) : ℚ := st.salary * (62 / 1000)

/-- The getter `socialSecurity`. -/
def socialSecurity (st : State) : Option String := JS.toFixed 2 (socialSecurityAmount st)

/-- The number that the getter `medicare` renders: `this.salary * 0.0145`. -/
def medicareAmount (st : State) : ℚ := st.salary * (145 / 10000)

/-- The getter `medicare`. -/
def medicare (st : State) : Option String := JS.toFixed 2 (medicareAmount st)

end TakeHomePayEstimator

namespace SalaryCalculator

/-- The record that `getRecord` delivers, as `wiredRecord` reads it: the
`value` of each of the six fields, `none` when it is `null` or missing. -/
structure Record where
  Salary__c : Option ℚ
  Federal_Tax__c : Option ℚ
  Social_Security_Tax__c : Option ℚ
  Medicare_Tax__c : Option ℚ
  Take_Home_Pay_Yearly__c : Option ℚ
  Take_Home_Pay_Monthly__c : Option ℚ
deriving DecidableEq

/-- What the wire adapter hands to `wiredRecord`: the object
`{ error, data }`, either of them possibly undefined. -/
structure WireResult where
  error : Option JSError
  data : Option Record
deriving DecidableEq

/-- The wired method `wiredRecord({ error, data })`; the call of
`calculateTakeHome` it may make is run to completion. -/
def wiredRecord (result : WireResult) (outcome : ServerOutcome) (st : State) : State :=
  match result.data with
  | some data =>
    let st := { st with salary := data.Salary__c.getD 0,
                        federalTax := data.Federal_Tax__c.getD 0,
                        socialSecurityTax := data.Social_Security_Tax__c.getD 0,
                        medicareTax := data.Medicare_Tax__c.getD 0,
                        takeHomeYearly := data.Take_Home_Pay_Yearly__c.getD 0,
                        takeHomeMonthly := data.Take_Home_Pay_Monthly__c.getD 0 }
    if st.salary > 0 ∧ st.takeHomeYearly = 0 then calculateTakeHome outcome st else st
  | none =>
    match result.error with
    | some error => handleError "Error loading record data" error st
    | none => st

/-- The method `formatCurrency(amount)`: the formatter built by
`Intl.NumberFormat`, a function of the platform taken as the parameter
`format`, applied to `amount || 0`. -/
def formatCurrency (format : ℚ → String) (amount : ℚ) : String :=
  format (if amount = 0 then 0 else amount)

/-- The getter `formattedTotalTax`. -/
def formattedTotalTax (format : ℚ → String) (st : State) : String :=
  let total := st.federalTax + st.socialSecurityTax + st.medicareTax
  formatCurrency format total

/-- The getter `formattedBiWeeklyTakeHome`. -/
def formattedBiWeeklyTakeHome (format : ℚ → String) (st : State) : String :=
  formatCurrency format (st.takeHomeYearly / 26)

/-- The getter `formattedWeeklyTakeHome`. -/
def formattedWeeklyTakeHome (format : ℚ → String) (st : State) : String :=
  formatCurrency format (st.takeHomeYearly / 52)

end SalaryCalculator


/-! ## Rounding -/

namespace JS

theorem mathRound_mono {x y : ℚ} (h : x ≤ y) : mathRound x ≤ mathRound y := by
  unfold mathRound
  exact_mod_cast Int.floor_mono (by linarith)

theorem mathRound_zero : mathRound 0 = 0 := by
  norm_num [mathRound]

theorem minInf_mono {x y : ℚ} (h : x ≤ y) (b : Option ℚ) : minInf x b ≤ minInf y b := by
  cases b with
  | none => exact h
  | some b => exact min_le_min h le_rfl

end JS

/-! ## The bracket loop of `salaryCalculator` in closed form -/

namespace SalaryCalculator

theorem bracketLoop_exhausted (T : ℚ) (bs : List Bracket) (tax rem : ℚ) (h : rem ≤ 0) :
    bracketLoop T bs tax rem = (tax, rem) := by
  cases bs with
  | nil => rfl
  | cons b rest => simp [bracketLoop, h]

theorem tierSum_nil (T : ℚ) : tierSum T [] = 0 := rfl

theorem tierSum_cons (T : ℚ) (b : Bracket) (rest : List Bracket) :
    tierSum T (b :: rest) = b.rate * tierAmount T b + tierSum T rest := by
  simp [tierSum]

/-- Tiers that start at or above the taxable income contribute nothing. -/
theorem tierSum_eq_zero (T : ℚ) :
    ∀ (bs : List Bracket) (m : ℚ), Contiguous m bs → T ≤ m → tierSum T bs = 0 := by
  intro bs
  induction bs with
  | nil => intro m _ _; rfl
  | cons b rest ih =>
    intro m hc hT
    obtain ⟨hmin, hmax⟩ := hc
    rw [tierSum_cons]
    have hmin' : JS.minInf T b.max ≤ T := by
      cases b.max with
      | none => exact le_rfl
      | some M => exact min_le_left _ _
    have h0 : tierAmount T b = 0 := by
      unfold tierAmount
      exact max_eq_left (by linarith)
    cases hb : b.max with
    | none =>
      rw [hb] at hmax
      simp [hmax, h0, tierSum_nil]
    | some M =>
      rw [hb] at hmax
      rw [h0, ih M hmax.2 (by linarith [hmax.1])]
      ring

/-- The loop over contiguous tiers adds up `rate * max(0, min(T, max) - min)`
and its guard `taxableIncome > bracket.min` never skips a tier. -/
theorem bracketLoop_eq_tierSum (T : ℚ) :
    ∀ (bs : List Bracket) (m tax : ℚ), Contiguous m bs → m < T →
      (bracketLoop T bs tax (T - m)).1 = tax + tierSum T bs := by
  intro bs
  induction bs with
  | nil => intro m tax _ _; simp [bracketLoop, tierSum_nil]
  | cons b rest ih =>
    intro m tax hc hT
    obtain ⟨hmin, hmax⟩ := hc
    have hrem : ¬ (T - m ≤ 0) := by linarith
    have hguard : T > b.min := by rw [hmin]; exact hT
    rw [tierSum_cons]
    cases hb : b.max with
    | none =>
      rw [hb] at hmax
      subst hmax
      have ha : tierAmount T b = T - m := by
        unfold tierAmount
        rw [hb, hmin]
        exact max_eq_right (by simp only [JS.minInf]; linarith)
      simp only [bracketLoop, hrem, hguard, hb, JS.subInf, JS.minInf, if_true, if_false,
        tierSum_nil, ha]
      ring
    | some M =>
      rw [hb] at hmax
      obtain ⟨hmM, hrest⟩ := hmax
      simp only [bracketLoop, hrem, hguard, hb, JS.subInf, JS.minInf, if_true, if_false]
      rw [hmin]
      rcases le_or_lt T M with hTM | hTM
      · have hw : min (T - m) (M - m) = T - m := min_eq_left (by linarith)
        have ha : tierAmount T b = T - m := by
          unfold tierAmount
          rw [hb, hmin]
          simp only [JS.minInf]
          rw [min_eq_left hTM]
          exact max_eq_right (by linarith)
        rw [hw, bracketLoop_exhausted _ _ _ _ (by linarith), ha,
          tierSum_eq_zero T rest M hrest hTM]
        ring
      · have hw : min (T - m) (M - m) = M - m := min_eq_right (by linarith)
        have ha : tierAmount T b = M - m := by
          unfold tierAmount
          rw [hb, hmin]
          simp only [JS.minInf]
          rw [min_eq_right hTM.le]
          exact max_eq_right (by linarith)
        have hr : T - m - (M - m) = T - M := by ring
        rw [hw, hr, ih M _ hrest hTM, ha]
        ring

theorem TAX_BRACKETS_contiguous : Contiguous 0 TAX_BRACKETS := by
  norm_num [Contiguous, TAX_BRACKETS]

/-- The method `calculateFederalTax` in closed form. -/
theorem calculateFederalTax_eq (g : ℚ) :
    calculateFederalTax g =
      JS.mathRound (tierSum (max 0 (g - STANDARD_DEDUCTION)) TAX_BRACKETS * 100) / 100 := by
  unfold calculateFederalTax
  simp only
  split_ifs with h
  · rw [tierSum_eq_zero _ _ 0 TAX_BRACKETS_contiguous h]
    norm_num [JS.mathRound_zero]
  · have hT : (0 : ℚ) < max 0 (g - STANDARD_DEDUCTION) := lt_of_not_le h
    have := bracketLoop_eq_tierSum (max 0 (g - STANDARD_DEDUCTION)) TAX_BRACKETS 0 0
      TAX_BRACKETS_contiguous hT
    rw [sub_zero, zero_add] at this
    rw [this]

end SalaryCalculator

/-! ## Sign and monotonicity of the two bracket engines -/

namespace SalaryCalculator

theorem tierAmount_nonneg (T : ℚ) (b : Bracket) : 0 ≤ tierAmount T b :=
  le_max_left _ _

theorem tierAmount_mono {T₁ T₂ : ℚ} (h : T₁ ≤ T₂) (b : Bracket) :
    tierAmount T₁ b ≤ tierAmount T₂ b :=
  max_le_max le_rfl (sub_le_sub_right (JS.minInf_mono h b.max) _)

theorem tierSum_nonneg (T : ℚ) :
    ∀ bs : List Bracket, (∀ b ∈ bs, 0 ≤ b.rate) → 0 ≤ tierSum T bs := by
  intro bs
  induction bs with
  | nil => intro _; exact le_rfl
  | cons b rest ih =>
    intro hr
    rw [tierSum_cons]
    have h1 : 0 ≤ b.rate := hr b (List.mem_cons_self _ _)
    have h2 := ih (fun c hc => hr c (List.mem_cons_of_mem _ hc))
    have h3 := mul_nonneg h1 (tierAmount_nonneg T b)
    linarith

theorem tierSum_mono {T₁ T₂ : ℚ} (h : T₁ ≤ T₂) :
    ∀ bs : List Bracket, (∀ b ∈ bs, 0 ≤ b.rate) → tierSum T₁ bs ≤ tierSum T₂ bs := by
  intro bs
  induction bs with
  | nil => intro _; exact le_rfl
  | cons b rest ih =>
    intro hr
    rw [tierSum_cons, tierSum_cons]
    have h1 : 0 ≤ b.rate := hr b (List.mem_cons_self _ _)
    have h2 := ih (fun c hc => hr c (List.mem_cons_of_mem _ hc))
    have h3 := mul_le_mul_of_nonneg_left (tierAmount_mono h b) h1
    linarith

theorem TAX_BRACKETS_rate_nonneg : ∀ b ∈ TAX_BRACKETS, 0 ≤ b.rate := by
  intro b hb
  simp only [TAX_BRACKETS, List.mem_cons, List.mem_singleton, List.not_mem_nil, or_false] at hb
  rcases hb with h | h | h | h | h | h | h <;> (rw [h]; norm_num)

theorem calculateFederalTax_mono {s₁ s₂ : ℚ} (h : s₁ ≤ s₂) :
    calculateFederalTax s₁ ≤ calculateFederalTax s₂ := by
  rw [calculateFederalTax_eq, calculateFederalTax_eq]
  have hT : max 0 (s₁ - STANDARD_DEDUCTION) ≤ max 0 (s₂ - STANDARD_DEDUCTION) :=
    max_le_max le_rfl (by linarith)
  have hs := tierSum_mono hT TAX_BRACKETS TAX_BRACKETS_rate_nonneg
  exact div_le_div_of_nonneg_right (JS.mathRound_mono (by linarith)) (by norm_num)

end SalaryCalculator

namespace TakeHomePayEstimator

/-- From an income at or above `prevLimit` the loop only adds tax. -/
theorem le_bracketLoop (income : ℚ) :
    ∀ (bs : List Bracket) (tax prev : ℚ), Ascending prev bs → prev ≤ income →
      tax ≤ bracketLoop income bs tax prev := by
  intro bs
  induction bs with
  | nil => intro tax prev _ _; exact le_rfl
  | cons b rest ih =>
    intro tax prev ha hp
    obtain ⟨hr, hl⟩ := ha
    have hlast : tax ≤ tax + (income - prev) * b.rate := by
      have := mul_nonneg (sub_nonneg.mpr hp) hr
      linarith
    cases hb : b.limit with
    | none => simpa [bracketLoop, hb] using hlast
    | some L =>
      rw [hb] at hl
      simp only [bracketLoop, hb]
      split_ifs with hi
      · have h1 := ih (tax + (L - prev) * b.rate) L hl.2 hi.le
        have h2 := mul_nonneg (sub_nonneg.mpr hl.1) hr
        linarith
      · exact hlast

/-- The loop is monotone in the income, from `prevLimit` upwards. -/
theorem bracketLoop_mono {x y : ℚ} (hxy : x ≤ y) :
    ∀ (bs : List Bracket) (tax prev : ℚ), Ascending prev bs → prev ≤ x →
      bracketLoop x bs tax prev ≤ bracketLoop y bs tax prev := by
  intro bs
  induction bs with
  | nil => intro tax prev _ _; exact le_rfl
  | cons b rest ih =>
    intro tax prev ha hp
    obtain ⟨hr, hl⟩ := ha
    have hlast : tax + (x - prev) * b.rate ≤ tax + (y - prev) * b.rate := by
      have := mul_le_mul_of_nonneg_right (sub_le_sub_right hxy prev) hr
      linarith
    cases hb : b.limit with
    | none => simpa [bracketLoop, hb] using hlast
    | some L =>
      rw [hb] at hl
      simp only [bracketLoop, hb]
      by_cases hx : x > L
      · have hy : y > L := lt_of_lt_of_le hx hxy
        rw [if_pos hx, if_pos hy]
        exact ih _ L hl.2 hx.le
      · rw [if_neg hx]
        split_ifs with hy
        · have h1 := le_bracketLoop y rest (tax + (L - prev) * b.rate) L hl.2 hy.le
          have h2 := mul_le_mul_of_nonneg_right (sub_le_sub_right (not_lt.mp hx) prev) hr
          linarith
        · exact hlast

theorem brackets_ascending : Ascending 0 brackets := by
  norm_num [Ascending, brackets]

theorem estimate_mono {s₁ s₂ : ℚ} (h₁ : 0 ≤ s₁) (h : s₁ ≤ s₂) :
    calculateFederalTax s₁ ≤ calculateFederalTax s₂ :=
  bracketLoop_mono h brackets 0 0 brackets_ascending h₁

end TakeHomePayEstimator

/-! ## The component's methods, step by step -/

namespace SalaryCalculator

theorem calculateTakeHome_of_nonpos (outcome : ServerOutcome) (st : State)
    (h : st.salary ≤ 0) : calculateTakeHome outcome st = resetCalculations st := by
  simp [calculateTakeHome, h]

theorem calculateTakeHome_client (outcome : ServerOutcome) (st : State)
    (h : 0 < st.salary) (hm : st.selectedMethod = "client") :
    calculateTakeHome outcome st =
      { calculateClientSide { st with isCalculating := true, calculationError := none } with
        isCalculating := false } := by
  simp [calculateTakeHome, not_le.mpr h, hm]

theorem handleSalaryChange_negative (value : Option ℚ) (st : State) (h : value.getD 0 < 0) :
    handleSalaryChange value st =
      { st with salary := value.getD 0,
                calculationError := some "Salary cannot be negative" } := by
  simp [handleSalaryChange, h]

theorem handleSalaryChange_high (value : Option ℚ) (st : State)
    (h : 10000000 < value.getD 0) :
    handleSalaryChange value st =
      { st with salary := value.getD 0,
                calculationError := some "Salary amount seems unusually high" } := by
  have h0 : ¬ value.getD 0 < 0 := by linarith
  simp [handleSalaryChange, h, h0]

theorem handleSalaryChange_accepted (value : Option ℚ) (st : State)
    (h0 : 0 ≤ value.getD 0) (h1 : value.getD 0 ≤ 10000000) :
    handleSalaryChange value st =
      debounceCalculation { st with salary := value.getD 0, calculationError := none } := by
  simp [handleSalaryChange, not_lt.mpr h0, not_lt.mpr h1]

end SalaryCalculator

/-! ## The claims -/

namespace SalaryCalculator

/-- C3: for every salary `s > 0`, `calculateClientSide` leaves the three
taxes as computed by the three tax methods from `s`, `takeHomeYearly` equal to
`s` minus their sum and `takeHomeMonthly` equal to `takeHomeYearly / 12`,
neither rounded again. -/
theorem C3_calculateClientSide_breakdown (st : State) (h : 0 < st.salary) :
    (calculateClientSide st).federalTax = calculateFederalTax st.salary ∧
      (calculateClientSide st).socialSecurityTax = calculateSocialSecurityTax st.salary ∧
      (calculateClientSide st).medicareTax = calculateMedicareTax st.salary ∧
      (calculateClientSide st).takeHomeYearly =
        st.salary - ((calculateClientSide st).federalTax +
          (calculateClientSide st).socialSecurityTax + (calculateClientSide st).medicareTax) ∧
      (calculateClientSide st).takeHomeMonthly = (calculateClientSide st).takeHomeYearly / 12 ∧
      (calculateClientSide st).salary = st.salary := by
  have _ := h
  simp [calculateClientSide]

theorem C3_calculateClientSide_breakdown_witness :
    (0 : ℚ) < ({ initial none with salary := 85000 } : State).salary ∧
      (calculateClientSide { initial none with salary := 85000 }).takeHomeMonthly =
        (calculateClientSide { initial none with salary := 85000 }).takeHomeYearly / 12 :=
  ⟨by norm_num [initial],
    (C3_calculateClientSide_breakdown { initial none with salary := 85000 }
      (by norm_num [initial])).2.2.2.2.1⟩

/-- C4: `handleSalaryChange` rejects a salary out of range. With `s` the
parsed salary, `calculationError` is 'Salary cannot be negative' exactly when
`s < 0`, 'Salary amount seems unusually high' exactly when `s > 10000000`, and
`null` otherwise; when it rejects, no timer is set and the five result fields
are as before; when it accepts (10000000 included) a calculation is
scheduled. -/
theorem C4_handleSalaryChange_validation (value : Option ℚ) (st : State) :
    ((handleSalaryChange value st).calculationError = some "Salary cannot be negative" ↔
        value.getD 0 < 0) ∧
      ((handleSalaryChange value st).calculationError =
          some "Salary amount seems unusually high" ↔ 10000000 < value.getD 0) ∧
      (0 ≤ value.getD 0 → value.getD 0 ≤ 10000000 →
        (handleSalaryChange value st).calculationError = none ∧
          (handleSalaryChange value st).calculationTimeout = some st.nextTimerId ∧
          st.nextTimerId ∈ (handleSalaryChange value st).pendingTimers) ∧
      (value.getD 0 < 0 ∨ 10000000 < value.getD 0 →
        (handleSalaryChange value st).pendingTimers = st.pendingTimers ∧
          (handleSalaryChange value st).calculationTimeout = st.calculationTimeout ∧
          (handleSalaryChange value st).nextTimerId = st.nextTimerId ∧
          (handleSalaryChange value st).taxCalls = st.taxCalls ∧
          (handleSalaryChange value st).federalTax = st.federalTax ∧
          (handleSalaryChange value st).socialSecurityTax = st.socialSecurityTax ∧
          (handleSalaryChange value st).medicareTax = st.medicareTax ∧
          (handleSalaryChange value st).takeHomeYearly = st.takeHomeYearly ∧
          (handleSalaryChange value st).takeHomeMonthly = st.takeHomeMonthly) ∧
      (handleSalaryChange value st).salary = value.getD 0 := by
  rcases lt_or_le (value.getD 0) 0 with hneg | hnn
  · rw [handleSalaryChange_negative value st hneg]
    have h1 : ¬ (10000000 : ℚ) < value.getD 0 := by linarith
    have h2 : ¬ (0 : ℚ) ≤ value.getD 0 := not_le.mpr hneg
    simp [hneg, h1, h2]
  · rcases lt_or_le (10000000 : ℚ) (value.getD 0) with hhi | hle
    · rw [handleSalaryChange_high value st hhi]
      have h1 : ¬ value.getD 0 < 0 := not_lt.mpr hnn
      have h2 : ¬ value.getD 0 ≤ 10000000 := not_le.mpr hhi
      simp [hhi, h1, h2]
    · rw [handleSalaryChange_accepted value st hnn hle]
      have h1 : ¬ value.getD 0 < 0 := not_lt.mpr hnn
      have h2 : ¬ (10000000 : ℚ) < value.getD 0 := not_lt.mpr hle
      simp [debounceCalculation, h1, h2, hnn, hle]

theorem C4_handleSalaryChange_validation_witness :
    ((handleSalaryChange (some 10000000) (initial none)).calculationError = none ∧
        (handleSalaryChange (some 10000000) (initial none)).calculationTimeout = some 1 ∧
        1 ∈ (handleSalaryChange (some 10000000) (initial none)).pendingTimers) ∧
      (handleSalaryChange (some 15000000) (initial none)).pendingTimers = [] :=
  ⟨(C4_handleSalaryChange_validation (some 10000000) (initial none)).2.2.1
      (by norm_num) (by norm_num),
    ((C4_handleSalaryChange_validation (some 15000000) (initial none)).2.2.2.1
      (Or.inr (by norm_num))).1⟩

/-- C5: for salary 0, `handleSalaryChange` with the value 0 sets a timer and,
when the debounced `calculateTakeHome` runs, the three taxes and the two
take-home figures are 0, `calculationError` is `null`, and none of the three
tax methods has been called. -/
theorem C5_zero_salary_all_zero (st : State) (outcome : ServerOutcome) :
    (handleSalaryChange (some 0) st).calculationTimeout = some st.nextTimerId ∧
      st.nextTimerId ∈ (handleSalaryChange (some 0) st).pendingTimers ∧
      (timerFires st.nextTimerId outcome (handleSalaryChange (some 0) st)).federalTax = 0 ∧
      (timerFires st.nextTimerId outcome (handleSalaryChange (some 0) st)).socialSecurityTax = 0 ∧
      (timerFires st.nextTimerId outcome (handleSalaryChange (some 0) st)).medicareTax = 0 ∧
      (timerFires st.nextTimerId outcome (handleSalaryChange (some 0) st)).takeHomeYearly = 0 ∧
      (timerFires st.nextTimerId outcome (handleSalaryChange (some 0) st)).takeHomeMonthly = 0 ∧
      (timerFires st.nextTimerId outcome (handleSalaryChange (some 0) st)).calculationError
        = none ∧
      (timerFires st.nextTimerId outcome (handleSalaryChange (some 0) st)).salary = 0 ∧
      (timerFires st.nextTimerId outcome (handleSalaryChange (some 0) st)).taxCalls
        = st.taxCalls := by
  have hacc := handleSalaryChange_accepted (some 0) st (by norm_num) (by norm_num)
  have hmem : st.nextTimerId ∈ (handleSalaryChange (some 0) st).pendingTimers := by
    rw [hacc]; simp [debounceCalculation]
  have hsal : (handleSalaryChange (some 0) st).salary = 0 := by
    rw [hacc]; simp [debounceCalculation]
  have hfire : timerFires st.nextTimerId outcome (handleSalaryChange (some 0) st) =
      resetCalculations { handleSalaryChange (some 0) st with
        pendingTimers := (handleSalaryChange (some 0) st).pendingTimers.erase st.nextTimerId } := by
    unfold timerFires
    rw [if_pos hmem]
    exact calculateTakeHome_of_nonpos _ _ (by simp [hsal])
  rw [hfire, hacc]
  simp [resetCalculations, debounceCalculation]

/-- C6: for every gross salary `g ≤ 13850`, zero and negative ones included,
`calculateFederalTax g` is 0. -/
theorem C6_no_federalTax_within_deduction (g : ℚ) (h : g ≤ 13850) :
    calculateFederalTax g = 0 := by
  unfold calculateFederalTax STANDARD_DEDUCTION
  simp only
  rw [if_pos]
  exact le_of_eq (max_eq_left (by linarith))

theorem C6_no_federalTax_within_deduction_witness :
    calculateFederalTax 13850 = 0 ∧ calculateFederalTax 0 = 0 ∧ calculateFederalTax (-1000) = 0 :=
  ⟨C6_no_federalTax_within_deduction 13850 (by norm_num),
    C6_no_federalTax_within_deduction 0 (by norm_num),
    C6_no_federalTax_within_deduction (-1000) (by norm_num)⟩

end SalaryCalculator

/-- C7: the bracket tax never decreases when the salary grows: for
`0 ≤ s₁ ≤ s₂` both `salaryCalculator.calculateFederalTax` and
`takeHomePayEstimator.calculateFederalTax` give at `s₁` at most what they
give at `s₂`. -/
theorem C7_bracket_tax_monotone (s₁ s₂ : ℚ) (h₁ : 0 ≤ s₁) (h : s₁ ≤ s₂) :
    SalaryCalculator.calculateFederalTax s₁ ≤ SalaryCalculator.calculateFederalTax s₂ ∧
      TakeHomePayEstimator.calculateFederalTax s₁ ≤
        TakeHomePayEstimator.calculateFederalTax s₂ :=
  ⟨SalaryCalculator.calculateFederalTax_mono h, TakeHomePayEstimator.estimate_mono h₁ h⟩

theorem C7_bracket_tax_monotone_witness :
    SalaryCalculator.calculateFederalTax 24850 ≤ SalaryCalculator.calculateFederalTax 100000 ∧
      TakeHomePayEstimator.calculateFederalTax 24850 ≤
        TakeHomePayEstimator.calculateFederalTax 100000 :=
  C7_bracket_tax_monotone 24850 100000 (by norm_num) (by norm_num)

/-- C8: income exactly at the first tier boundary is taxed at the lower
tier's rate only. Without a deduction `takeHomePayEstimator` gives
`calculateFederalTax(11000) = 1100` and
`calculateFederalTax(11000.01) = 1100 + 0.01 * 0.12`; with the deduction of
13850 `salaryCalculator` gives `calculateFederalTax(24850) = 1100.00`. -/
theorem C8_boundary_exactness :
    TakeHomePayEstimator.calculateFederalTax 11000 = 1100 ∧
      TakeHomePayEstimator.calculateFederalTax 11000 = 11000 * (10 / 100) ∧
      TakeHomePayEstimator.calculateFederalTax (1100001 / 100) = 1100 + 1 / 100 * (12 / 100) ∧
      SalaryCalculator.calculateFederalTax 24850 = 1100 := by
  refine ⟨?_, ?_, ?_, ?_⟩
  · norm_num [TakeHomePayEstimator.calculateFederalTax, TakeHomePayEstimator.bracketLoop,
      TakeHomePayEstimator.brackets]
  · norm_num [TakeHomePayEstimator.calculateFederalTax, TakeHomePayEstimator.bracketLoop,
      TakeHomePayEstimator.brackets]
  · norm_num [TakeHomePayEstimator.calculateFederalTax, TakeHomePayEstimator.bracketLoop,
      TakeHomePayEstimator.brackets]
  · norm_num [SalaryCalculator.calculateFederalTax, SalaryCalculator.bracketLoop,
      SalaryCalculator.TAX_BRACKETS, SalaryCalculator.STANDARD_DEDUCTION, JS.mathRound,
      JS.minInf, JS.subInf]

/-- C9: for the salary 100000 on the client path, `calculateTakeHome` yields
`socialSecurityTax = 6200.00` and `medicareTax = 1450.00` exactly, a positive
`federalTax` and a `takeHomeYearly` below 100000. -/
theorem C9_breakdown_at_100000 (st : SalaryCalculator.State)
    (outcome : SalaryCalculator.ServerOutcome) (hs : st.salary = 100000)
    (hm : st.selectedMethod = "client") :
    (SalaryCalculator.calculateTakeHome outcome st).socialSecurityTax = 6200 ∧
      (SalaryCalculator.calculateTakeHome outcome st).medicareTax = 1450 ∧
      0 < (SalaryCalculator.calculateTakeHome outcome st).federalTax ∧
      (SalaryCalculator.calculateTakeHome outcome st).takeHomeYearly < 100000 ∧
      (SalaryCalculator.calculateTakeHome outcome st).federalTax = 1426050 / 100 ∧
      (SalaryCalculator.calculateTakeHome outcome st).takeHomeYearly = 7808950 / 100 := by
  have hf : SalaryCalculator.calculateFederalTax 100000 = 1426050 / 100 := by
    norm_num [SalaryCalculator.calculateFederalTax, SalaryCalculator.bracketLoop,
      SalaryCalculator.TAX_BRACKETS, SalaryCalculator.STANDARD_DEDUCTION, JS.mathRound,
      JS.minInf, JS.subInf]
  have hss : SalaryCalculator.calculateSocialSecurityTax 100000 = 6200 := by
    norm_num [SalaryCalculator.calculateSocialSecurityTax,
      SalaryCalculator.SOCIAL_SECURITY_WAGE_BASE, SalaryCalculator.SOCIAL_SECURITY_RATE,
      JS.mathRound]
  have hmed : SalaryCalculator.calculateMedicareTax 100000 = 1450 := by
    norm_num [SalaryCalculator.calculateMedicareTax, SalaryCalculator.MEDICARE_RATE,
      JS.mathRound]
  rw [SalaryCalculator.calculateTakeHome_client outcome st (by rw [hs]; norm_num) hm]
  simp only [SalaryCalculator.calculateClientSide, hs, hf, hss, hmed]
  norm_num

theorem C9_breakdown_at_100000_witness :
    ({ SalaryCalculator.initial none with salary := 100000 } : SalaryCalculator.State).salary
        = 100000 ∧
      (SalaryCalculator.calculateTakeHome
        (SalaryCalculator.ServerOutcome.rejected { bodyMessage := none, message := none })
        { SalaryCalculator.initial none with salary := 100000 }).socialSecurityTax = 6200 :=
  ⟨rfl,
    (C9_breakdown_at_100000 { SalaryCalculator.initial none with salary := 100000 }
      (SalaryCalculator.ServerOutcome.rejected { bodyMessage := none, message := none })
      rfl rfl).1⟩

namespace JS


end JS

/-! ## The server path, the percentages and the estimator -/

namespace SalaryCalculator


theorem calculateTakeHome_server_resolved (result : Response) (st : State)
    (h : 0 < st.salary) (hm : st.selectedMethod ≠ "client") :
    calculateTakeHome (ServerOutcome.resolved result) st =
      { st with isCalculating := false, calculationError := none,
                federalTax := result.federalTax.getD 0,
                socialSecurityTax := result.socialSecurityTax.getD 0,
                medicareTax := result.medicareTax.getD 0,
                takeHomeYearly := result.takeHomeYearly.getD 0,
                takeHomeMonthly := result.takeHomeMonthly.getD 0 } := by
  simp [calculateTakeHome, calculateServerSide, not_le.mpr h, hm]

theorem calculateTakeHome_server_rejected (error : JSError) (st : State)
    (h : 0 < st.salary) (hm : st.selectedMethod ≠ "client") :
    calculateTakeHome (ServerOutcome.rejected error) st =
      { handleError "Calculation error" error
          { st with isCalculating := true, calculationError := none } with
        isCalculating := false } := by
  simp [calculateTakeHome, calculateServerSide, not_le.mpr h, hm]

theorem calculateTakeHome_server_null (typeError : JSError) (st : State)
    (h : 0 < st.salary) (hm : st.selectedMethod ≠ "client") :
    calculateTakeHome (ServerOutcome.resolvedNull typeError) st =
      { handleError "Calculation error" typeError
          { st with isCalculating := true, calculationError := none } with
        isCalculating := false } := by
  simp [calculateTakeHome, calculateServerSide, not_le.mpr h, hm]

theorem orElse_of_truthy (s b : String) (h : s ≠ "") : orElse (some s) b = s := by
  simp [orElse, h]

theorem orElse_of_falsy (a : Option String) (b : String) (h : a = none ∨ a = some "") :
    orElse a b = b := by
  rcases h with h | h <;> simp [orElse, h]

/-- C11 fails on the server path: with the response of the component's own
test (`takeHomeYearly: 77350`, `takeHomeMonthly: 6445.83`) the state after
`calculateTakeHome` has `takeHomeMonthly ≠ takeHomeYearly / 12`. -/
theorem C11_server_monthly_counterexample :
    (calculateTakeHome
        (ServerOutcome.resolved
          { federalTax := some 15000, socialSecurityTax := some 6200, medicareTax := some 1450,
            totalTax := some 22650, takeHomeYearly := some 77350,
            takeHomeMonthly := some (644583 / 100), takeHomeBiWeekly := some 2975,
            takeHomeWeekly := some (14875 / 10) })
        { initial none with salary := 100000, selectedMethod := "server" }).takeHomeMonthly ≠
      (calculateTakeHome
        (ServerOutcome.resolved
          { federalTax := some 15000, socialSecurityTax := some 6200, medicareTax := some 1450,
            totalTax := some 22650, takeHomeYearly := some 77350,
            takeHomeMonthly := some (644583 / 100), takeHomeBiWeekly := some 2975,
            takeHomeWeekly := some (14875 / 10) })
        { initial none with salary := 100000, selectedMethod := "server" }).takeHomeYearly / 12 := by
  rw [calculateTakeHome_server_resolved _ _ (by norm_num [initial]) (by decide)]
  norm_num

/-- C11, amended: with salary > 0, on the client path `calculateTakeHome`
leaves `takeHomeMonthly = takeHomeYearly / 12` exactly; on the server path
the two fields are the response's `takeHomeYearly` and `takeHomeMonthly` (0
when absent), so that the equation holds exactly when the response's own
two values satisfy it. -/
theorem C11_monthly_by_path (st : State) (h : 0 < st.salary) :
    (st.selectedMethod = "client" → ∀ outcome : ServerOutcome,
        (calculateTakeHome outcome st).takeHomeMonthly =
          (calculateTakeHome outcome st).takeHomeYearly / 12) ∧
      (st.selectedMethod ≠ "client" → ∀ result : Response,
        (calculateTakeHome (ServerOutcome.resolved result) st).takeHomeYearly =
            result.takeHomeYearly.getD 0 ∧
          (calculateTakeHome (ServerOutcome.resolved result) st).takeHomeMonthly =
            result.takeHomeMonthly.getD 0 ∧
          ((calculateTakeHome (ServerOutcome.resolved result) st).takeHomeMonthly =
              (calculateTakeHome (ServerOutcome.resolved result) st).takeHomeYearly / 12 ↔
            result.takeHomeMonthly.getD 0 = result.takeHomeYearly.getD 0 / 12)) := by
  constructor
  · intro hm outcome
    rw [calculateTakeHome_client outcome st h hm]
    simp [calculateClientSide]
  · intro hm result
    rw [calculateTakeHome_server_resolved result st h hm]
    simp

theorem C11_monthly_by_path_witness :
    (calculateTakeHome (ServerOutcome.rejected { bodyMessage := none, message := none })
        { initial none with salary := 85000 }).takeHomeMonthly =
      (calculateTakeHome (ServerOutcome.rejected { bodyMessage := none, message := none })
        { initial none with salary := 85000 }).takeHomeYearly / 12 :=
  (C11_monthly_by_path { initial none with salary := 85000 } (by norm_num [initial])).1 rfl _

theorem handleMethodChange_pos (value : String) (outcome : ServerOutcome) (st : State)
    (h : 0 < st.salary) :
    handleMethodChange value outcome st =
      calculateTakeHome outcome { st with selectedMethod := value } := by
  simp [handleMethodChange, h]

/-- C12, the code at the failing input: the salary 15000000 is rejected by
`handleSalaryChange` with the message, and a following `handleMethodChange`
computes the breakdown for that salary and clears the message; so does the
timer that an accepted input has left pending. -/
theorem C12_high_salary_computed_after_rejection (outcome : ServerOutcome) :
    (handleSalaryChange (some 15000000) (initial none)).calculationError =
        some "Salary amount seems unusually high" ∧
      (handleMethodChange "client" outcome
        (handleSalaryChange (some 15000000) (initial none))).salary = 15000000 ∧
      (handleMethodChange "client" outcome
        (handleSalaryChange (some 15000000) (initial none))).calculationError = none ∧
      (handleMethodChange "client" outcome
        (handleSalaryChange (some 15000000) (initial none))).federalTax = 55052115 / 10 ∧
      (handleMethodChange "client" outcome
        (handleSalaryChange (some 15000000) (initial none))).takeHomeYearly = 92673561 / 10 ∧
      (handleMethodChange "client" outcome
        (handleSalaryChange (some 15000000) (initial none))).taxCalls =
          [TaxCall.federal 15000000, TaxCall.socialSecurity 15000000,
            TaxCall.medicare 15000000] ∧
      (timerFires 1 outcome (handleSalaryChange (some 15000000)
        (handleSalaryChange (some 5000) (initial none)))).salary = 15000000 ∧
      (timerFires 1 outcome (handleSalaryChange (some 15000000)
        (handleSalaryChange (some 5000) (initial none)))).calculationError = none ∧
      (timerFires 1 outcome (handleSalaryChange (some 15000000)
        (handleSalaryChange (some 5000) (initial none)))).federalTax = 55052115 / 10 := by
  have hf : calculateFederalTax 15000000 = 55052115 / 10 := by
    norm_num [calculateFederalTax, bracketLoop, TAX_BRACKETS, STANDARD_DEDUCTION, JS.mathRound,
      JS.minInf, JS.subInf]
  have hss : calculateSocialSecurityTax 15000000 = 993240 / 100 := by
    norm_num [calculateSocialSecurityTax, SOCIAL_SECURITY_WAGE_BASE, SOCIAL_SECURITY_RATE,
      JS.mathRound]
  have hmed : calculateMedicareTax 15000000 = 217500 := by
    norm_num [calculateMedicareTax, MEDICARE_RATE, JS.mathRound]
  have h1 := handleSalaryChange_high (some 15000000) (initial none) (by norm_num)
  simp only [Option.getD_some] at h1
  have h2 := handleSalaryChange_accepted (some 5000) (initial none) (by norm_num) (by norm_num)
  simp only [Option.getD_some] at h2
  have h3 := handleSalaryChange_high (some 15000000)
    (handleSalaryChange (some 5000) (initial none)) (by norm_num)
  simp only [Option.getD_some] at h3
  have h4 : timerFires 1 outcome (handleSalaryChange (some 15000000)
        (handleSalaryChange (some 5000) (initial none))) =
      calculateTakeHome outcome
        { handleSalaryChange (some 15000000) (handleSalaryChange (some 5000) (initial none)) with
          pendingTimers := [] } := by
    rw [h3, h2]
    simp [timerFires, debounceCalculation, initial]
  rw [h4, h3, h2, h1, handleMethodChange_pos _ _ _ (by norm_num),
    calculateTakeHome_client _ _ (by norm_num) rfl,
    calculateTakeHome_client _ _ (by norm_num) (by simp [debounceCalculation, initial])]
  simp only [calculateClientSide, debounceCalculation, initial, hf, hss, hmed]
  norm_num

end SalaryCalculator

namespace SalaryCalculator

/-- C14: for every response object, `calculateServerSide` sets each of
`federalTax`, `socialSecurityTax`, `medicareTax`, `takeHomeYearly` and
`takeHomeMonthly` to the response's field of that name when it is present and
not zero, and to 0 when it is absent, `null` or zero. -/
theorem C14_server_fields_default_zero (result : Response) (st : State) :
    ∃ st' : State, calculateServerSide (ServerOutcome.resolved result) st = Except.ok st' ∧
      ((∀ v, result.federalTax = some v → v ≠ 0 → st'.federalTax = v) ∧
        (result.federalTax = none ∨ result.federalTax = some 0 → st'.federalTax = 0)) ∧
      ((∀ v, result.socialSecurityTax = some v → v ≠ 0 → st'.socialSecurityTax = v) ∧
        (result.socialSecurityTax = none ∨ result.socialSecurityTax = some 0 →
          st'.socialSecurityTax = 0)) ∧
      ((∀ v, result.medicareTax = some v → v ≠ 0 → st'.medicareTax = v) ∧
        (result.medicareTax = none ∨ result.medicareTax = some 0 → st'.medicareTax = 0)) ∧
      ((∀ v, result.takeHomeYearly = some v → v ≠ 0 → st'.takeHomeYearly = v) ∧
        (result.takeHomeYearly = none ∨ result.takeHomeYearly = some 0 →
          st'.takeHomeYearly = 0)) ∧
      ((∀ v, result.takeHomeMonthly = some v → v ≠ 0 → st'.takeHomeMonthly = v) ∧
        (result.takeHomeMonthly = none ∨ result.takeHomeMonthly = some 0 →
          st'.takeHomeMonthly = 0)) ∧
      st'.salary = st.salary := by
  refine ⟨_, rfl, ⟨?_, ?_⟩, ⟨?_, ?_⟩, ⟨?_, ?_⟩, ⟨?_, ?_⟩, ⟨?_, ?_⟩, rfl⟩
  · intro v hv _; simp [hv]
  · rintro (h | h) <;> simp [h]
  · intro v hv _; simp [hv]
  · rintro (h | h) <;> simp [h]
  · intro v hv _; simp [hv]
  · rintro (h | h) <;> simp [h]
  · intro v hv _; simp [hv]
  · rintro (h | h) <;> simp [h]
  · intro v hv _; simp [hv]
  · rintro (h | h) <;> simp [h]

/-- C15: when the delegated call fails, by throwing or by yielding `null`,
during `calculateTakeHome` with salary > 0 and the method 'server', the error
is reported and no zeros are put in: `calculationError` is
`error.body.message` if there is one, else `error.message`, else
'An unexpected error occurred', a toast with it is dispatched, and the three
taxes and two take-home figures keep their values. -/
theorem C15_delegation_failure_reported (st : State) (error : JSError) (outcome : ServerOutcome)
    (h : 0 < st.salary) (hm : st.selectedMethod = "server")
    (ho : outcome = ServerOutcome.rejected error ∨ outcome = ServerOutcome.resolvedNull error) :
    ((∀ m, error.bodyMessage = some m → m ≠ "" →
          (calculateTakeHome outcome st).calculationError = some m) ∧
        (error.bodyMessage = none ∨ error.bodyMessage = some "" →
          ∀ m, error.message = some m → m ≠ "" →
            (calculateTakeHome outcome st).calculationError = some m) ∧
        (error.bodyMessage = none ∨ error.bodyMessage = some "" →
          error.message = none ∨ error.message = some "" →
            (calculateTakeHome outcome st).calculationError =
              some "An unexpected error occurred")) ∧
      (∃ message, (calculateTakeHome outcome st).calculationError = some message ∧
        (calculateTakeHome outcome st).toasts =
          st.toasts ++ [{ title := "Calculation error", message := message, variant := "error" }]) ∧
      (calculateTakeHome outcome st).federalTax = st.federalTax ∧
      (calculateTakeHome outcome st).socialSecurityTax = st.socialSecurityTax ∧
      (calculateTakeHome outcome st).medicareTax = st.medicareTax ∧
      (calculateTakeHome outcome st).takeHomeYearly = st.takeHomeYearly ∧
      (calculateTakeHome outcome st).takeHomeMonthly = st.takeHomeMonthly ∧
      (calculateTakeHome outcome st).isCalculating = false := by
  have hne : st.selectedMethod ≠ "client" := by rw [hm]; decide
  have hstep : calculateTakeHome outcome st =
      { handleError "Calculation error" error
          { st with isCalculating := true, calculationError := none } with
        isCalculating := false } := by
    rcases ho with ho | ho
    · rw [ho]; exact calculateTakeHome_server_rejected error st h hne
    · rw [ho]; exact calculateTakeHome_server_null error st h hne
  rw [hstep]
  refine ⟨⟨?_, ?_, ?_⟩, ⟨_, rfl, rfl⟩, rfl, rfl, rfl, rfl, rfl, rfl⟩
  · intro m hb hm0
    simp [handleError, showToast, hb, orElse_of_truthy m _ hm0]
  · intro hb m hmsg hm0
    simp [handleError, showToast, orElse_of_falsy _ _ hb, hmsg, orElse_of_truthy m _ hm0]
  · intro hb hmsg
    simp [handleError, showToast, orElse_of_falsy _ _ hb, orElse_of_falsy _ _ hmsg]

theorem C15_delegation_failure_reported_witness :
    (calculateTakeHome
        (ServerOutcome.rejected { bodyMessage := some "Service unavailable", message := none })
        { initial none with salary := 100000, selectedMethod := "server",
                            federalTax := 15000 }).calculationError
        = some "Service unavailable" ∧
      (calculateTakeHome
        (ServerOutcome.rejected { bodyMessage := some "Service unavailable", message := none })
        { initial none with salary := 100000, selectedMethod := "server",
                            federalTax := 15000 }).federalTax = 15000 :=
  ⟨(C15_delegation_failure_reported
      { initial none with salary := 100000, selectedMethod := "server", federalTax := 15000 }
      { bodyMessage := some "Service unavailable", message := none } _
      (by norm_num [initial]) rfl (Or.inl rfl)).1.1 "Service unavailable" rfl (by decide),
    (C15_delegation_failure_reported
      { initial none with salary := 100000, selectedMethod := "server", federalTax := 15000 }
      { bodyMessage := some "Service unavailable", message := none } _
      (by norm_num [initial]) rfl (Or.inl rfl)).2.2.1⟩

end SalaryCalculator

namespace SalaryCalculationService

theorem round2_of_nonneg {x : ℚ} (h : 0 ≤ x) : round2 x = JS.mathRound (x * 100) / 100 := by
  simp [round2, h, JS.mathRound]

theorem computeBracketTax_eq (g : ℚ) :
    computeBracketTax g SalaryCalculator.STANDARD_DEDUCTION SalaryCalculator.TAX_BRACKETS =
      SalaryCalculator.calculateFederalTax g := by
  unfold computeBracketTax
  simp only
  split_ifs with h
  · unfold SalaryCalculator.calculateFederalTax
    simp only
    rw [if_pos (le_of_eq h)]
  · rw [SalaryCalculator.calculateFederalTax_eq,
      round2_of_nonneg
        (SalaryCalculator.tierSum_nonneg _ _ SalaryCalculator.TAX_BRACKETS_rate_nonneg)]

theorem computeFlatTax_capped {g : ℚ} (h : 0 ≤ g) :
    computeFlatTax g
        { rate := SalaryCalculator.SOCIAL_SECURITY_RATE,
          wageBase := some SalaryCalculator.SOCIAL_SECURITY_WAGE_BASE } =
      SalaryCalculator.calculateSocialSecurityTax g := by
  have h0 : 0 ≤ min g SalaryCalculator.SOCIAL_SECURITY_WAGE_BASE *
      SalaryCalculator.SOCIAL_SECURITY_RATE :=
    mul_nonneg (le_min h (by norm_num [SalaryCalculator.SOCIAL_SECURITY_WAGE_BASE]))
      (by norm_num [SalaryCalculator.SOCIAL_SECURITY_RATE])
  simp only [computeFlatTax, JS.minInf, SalaryCalculator.calculateSocialSecurityTax]
  rw [round2_of_nonneg h0]

theorem computeFlatTax_uncapped {g : ℚ} (h : 0 ≤ g) :
    computeFlatTax g { rate := SalaryCalculator.MEDICARE_RATE, wageBase := none } =
      SalaryCalculator.calculateMedicareTax g := by
  have h0 : 0 ≤ g * SalaryCalculator.MEDICARE_RATE :=
    mul_nonneg h (by norm_num [SalaryCalculator.MEDICARE_RATE])
  simp only [computeFlatTax, JS.minInf, SalaryCalculator.calculateMedicareTax]
  rw [round2_of_nonneg h0]

/-- For a salary in range the delegated authority answers with the figures
of the client-side methods. -/
theorem calculateSalaryBreakdown_in_range {s : ℚ} (h0 : 0 < s) (h1 : s ≤ 10000000) :
    calculateSalaryBreakdown s =
      SalaryCalculator.ServerOutcome.resolved
        { federalTax := some (SalaryCalculator.calculateFederalTax s),
          socialSecurityTax := some (SalaryCalculator.calculateSocialSecurityTax s),
          medicareTax := some (SalaryCalculator.calculateMedicareTax s),
          totalTax := some (SalaryCalculator.calculateFederalTax s +
            SalaryCalculator.calculateSocialSecurityTax s +
            SalaryCalculator.calculateMedicareTax s),
          takeHomeYearly := some (s - (SalaryCalculator.calculateFederalTax s +
            SalaryCalculator.calculateSocialSecurityTax s +
            SalaryCalculator.calculateMedicareTax s)),
          takeHomeMonthly := some ((s - (SalaryCalculator.calculateFederalTax s +
            SalaryCalculator.calculateSocialSecurityTax s +
            SalaryCalculator.calculateMedicareTax s)) / 12),
          takeHomeBiWeekly := some ((s - (SalaryCalculator.calculateFederalTax s +
            SalaryCalculator.calculateSocialSecurityTax s +
            SalaryCalculator.calculateMedicareTax s)) / 26),
          takeHomeWeekly := some ((s - (SalaryCalculator.calculateFederalTax s +
            SalaryCalculator.calculateSocialSecurityTax s +
            SalaryCalculator.calculateMedicareTax s)) / 52) } := by
  unfold calculateSalaryBreakdown calculateBreakdown
  rw [if_neg (not_lt.mpr h0.le), if_neg (not_lt.mpr h1), if_neg (ne_of_gt h0)]
  simp only [computeBracketTax_eq, computeFlatTax_capped h0.le, computeFlatTax_uncapped h0.le]

end SalaryCalculationService

namespace SalaryCalculator

/-- C16: for every salary in range, `0 < salary ≤ 10000000`, the local path
and the delegated path, the latter backed by the service as the
specification describes it, leave the component with the same `federalTax`,
`socialSecurityTax`, `medicareTax`, `takeHomeYearly` and `takeHomeMonthly`,
so within the tolerance of 0.01. -/
theorem C16_local_and_delegated_agree (st : State) (outcome : ServerOutcome)
    (h0 : 0 < st.salary) (h1 : st.salary ≤ 10000000) :
    |(calculateTakeHome outcome { st with selectedMethod := "client" }).federalTax -
        (calculateTakeHome (SalaryCalculationService.calculateSalaryBreakdown st.salary)
          { st with selectedMethod := "server" }).federalTax| ≤ 1 / 100 ∧
      |(calculateTakeHome outcome { st with selectedMethod := "client" }).socialSecurityTax -
        (calculateTakeHome (SalaryCalculationService.calculateSalaryBreakdown st.salary)
          { st with selectedMethod := "server" }).socialSecurityTax| ≤ 1 / 100 ∧
      |(calculateTakeHome outcome { st with selectedMethod := "client" }).medicareTax -
        (calculateTakeHome (SalaryCalculationService.calculateSalaryBreakdown st.salary)
          { st with selectedMethod := "server" }).medicareTax| ≤ 1 / 100 ∧
      |(calculateTakeHome outcome { st with selectedMethod := "client" }).takeHomeYearly -
        (calculateTakeHome (SalaryCalculationService.calculateSalaryBreakdown st.salary)
          { st with selectedMethod := "server" }).takeHomeYearly| ≤ 1 / 100 ∧
      |(calculateTakeHome outcome { st with selectedMethod := "client" }).takeHomeMonthly -
        (calculateTakeHome (SalaryCalculationService.calculateSalaryBreakdown st.salary)
          { st with selectedMethod := "server" }).takeHomeMonthly| ≤ 1 / 100 := by
  rw [SalaryCalculationService.calculateSalaryBreakdown_in_range h0 h1,
    calculateTakeHome_client outcome { st with selectedMethod := "client" } h0 rfl,
    calculateTakeHome_server_resolved _ { st with selectedMethod := "server" } h0 (by simp)]
  simp [calculateClientSide]

theorem C16_local_and_delegated_agree_witness :
    |(calculateTakeHome (ServerOutcome.rejected { bodyMessage := none, message := none })
        { initial none with selectedMethod := "client", salary := 100000 }).federalTax -
      (calculateTakeHome (SalaryCalculationService.calculateSalaryBreakdown 100000)
        { initial none with selectedMethod := "server", salary := 100000 }).federalTax|
      ≤ 1 / 100 :=
  (C16_local_and_delegated_agree { initial none with salary := 100000 }
    (ServerOutcome.rejected { bodyMessage := none, message := none })
    (by norm_num [initial]) (by norm_num [initial])).1

end SalaryCalculator

namespace TakeHomePayEstimator

end TakeHomePayEstimator

/-- C17: both bracket tables are well formed. In `TAX_BRACKETS` the first
tier starts at 0, every tier has `min < max`, each tier starts where the one
before ends, the last tier is unbounded and every rate lies in [0, 1]; in the
estimator's table the limits ascend strictly, the last one is unbounded and
every rate lies in [0, 1]. -/
theorem C17_bracket_tables_well_formed :
    (SalaryCalculator.TAX_BRACKETS.head?.map (fun b => b.min) = some 0 ∧
        (∀ b ∈ SalaryCalculator.TAX_BRACKETS, JS.ltInf (some b.min) b.max) ∧
        List.Chain' (fun a b : SalaryCalculator.Bracket => a.max = some b.min)
          SalaryCalculator.TAX_BRACKETS ∧
        SalaryCalculator.TAX_BRACKETS.getLast?.map (fun b => b.max) = some none ∧
        (∀ b ∈ SalaryCalculator.TAX_BRACKETS, 0 ≤ b.rate ∧ b.rate ≤ 1)) ∧
      (List.Chain' (fun a b : TakeHomePayEstimator.Bracket => JS.ltInf a.limit b.limit)
          TakeHomePayEstimator.brackets ∧
        TakeHomePayEstimator.brackets.getLast?.map (fun b => b.limit) = some none ∧
        (∀ b ∈ TakeHomePayEstimator.brackets, 0 ≤ b.rate ∧ b.rate ≤ 1)) ∧
      SalaryCalculator.TAX_BRACKETS.length = 7 ∧ TakeHomePayEstimator.brackets.length = 7 := by
  refine ⟨⟨?_, ?_, ?_, ?_, ?_⟩, ⟨?_, ?_, ?_⟩, rfl, rfl⟩
  · simp [SalaryCalculator.TAX_BRACKETS]
  · intro b hb
    simp only [SalaryCalculator.TAX_BRACKETS, List.mem_cons, List.mem_singleton,
      List.not_mem_nil, or_false] at hb
    rcases hb with h | h | h | h | h | h | h <;> (rw [h]; norm_num [JS.ltInf])
  · norm_num [SalaryCalculator.TAX_BRACKETS, List.Chain']
  · simp [SalaryCalculator.TAX_BRACKETS]
  · intro b hb
    simp only [SalaryCalculator.TAX_BRACKETS, List.mem_cons, List.mem_singleton,
      List.not_mem_nil, or_false] at hb
    rcases hb with h | h | h | h | h | h | h <;> (rw [h]; norm_num)
  · norm_num [TakeHomePayEstimator.brackets, List.Chain', JS.ltInf]
  · simp [TakeHomePayEstimator.brackets]
  · intro b hb
    simp only [TakeHomePayEstimator.brackets, List.mem_cons, List.mem_singleton,
      List.not_mem_nil, or_false] at hb
    rcases hb with h | h | h | h | h | h | h <;> (rw [h]; norm_num)

namespace TakeHomePayEstimator

end TakeHomePayEstimator

/-! ## The estimator without validation, reset and record loading -/

namespace TakeHomePayEstimator

end TakeHomePayEstimator

namespace SalaryCalculator

/-- C23: for every state `handleReset` sets `salary`, the three taxes and the
two take-home figures to 0 and `calculationError` to `null`, leaves
`recordId` and `selectedMethod` as they are, and doing it twice is doing it
once. -/
theorem C23_handleReset (st : State) :
    (handleReset st).salary = 0 ∧ (handleReset st).federalTax = 0 ∧
      (handleReset st).socialSecurityTax = 0 ∧ (handleReset st).medicareTax = 0 ∧
      (handleReset st).takeHomeYearly = 0 ∧ (handleReset st).takeHomeMonthly = 0 ∧
      (handleReset st).calculationError = none ∧
      (handleReset st).recordId = st.recordId ∧
      (handleReset st).selectedMethod = st.selectedMethod ∧
      handleReset (handleReset st) = handleReset st :=
  ⟨rfl, rfl, rfl, rfl, rfl, rfl, rfl, rfl, rfl, rfl⟩

/-- The state right after the six assignments of `wiredRecord`. -/
theorem wiredRecord_data (data : Record) (error : Option JSError) (outcome : ServerOutcome)
    (st : State) :
    wiredRecord { error := error, data := some data } outcome st =
      if data.Salary__c.getD 0 > 0 ∧ data.Take_Home_Pay_Yearly__c.getD 0 = 0 then
        calculateTakeHome outcome
          { st with salary := data.Salary__c.getD 0,
                    federalTax := data.Federal_Tax__c.getD 0,
                    socialSecurityTax := data.Social_Security_Tax__c.getD 0,
                    medicareTax := data.Medicare_Tax__c.getD 0,
                    takeHomeYearly := data.Take_Home_Pay_Yearly__c.getD 0,
                    takeHomeMonthly := data.Take_Home_Pay_Monthly__c.getD 0 }
      else
        { st with salary := data.Salary__c.getD 0,
                  federalTax := data.Federal_Tax__c.getD 0,
                  socialSecurityTax := data.Social_Security_Tax__c.getD 0,
                  medicareTax := data.Medicare_Tax__c.getD 0,
                  takeHomeYearly := data.Take_Home_Pay_Yearly__c.getD 0,
                  takeHomeMonthly := data.Take_Home_Pay_Monthly__c.getD 0 } := by
  simp only [wiredRecord]

/-- C24: for every record delivered to `wiredRecord` the six fields are set
to the record's values, 0 for a value that is `null` or missing; when the
loaded yearly take-home is not zero (or the salary is not positive) they are
kept as loaded and no tax method runs; a calculation on the loaded state is
made exactly when the loaded salary is > 0 and the loaded yearly take-home is
0, which on the client path shows in the log of the tax methods. -/
theorem C24_wiredRecord (data : Record) (error : Option JSError) (outcome : ServerOutcome)
    (st : State) :
    (¬ (data.Salary__c.getD 0 > 0 ∧ data.Take_Home_Pay_Yearly__c.getD 0 = 0) →
        (wiredRecord { error := error, data := some data } outcome st).salary
            = data.Salary__c.getD 0 ∧
          (wiredRecord { error := error, data := some data } outcome st).federalTax
            = data.Federal_Tax__c.getD 0 ∧
          (wiredRecord { error := error, data := some data } outcome st).socialSecurityTax
            = data.Social_Security_Tax__c.getD 0 ∧
          (wiredRecord { error := error, data := some data } outcome st).medicareTax
            = data.Medicare_Tax__c.getD 0 ∧
          (wiredRecord { error := error, data := some data } outcome st).takeHomeYearly
            = data.Take_Home_Pay_Yearly__c.getD 0 ∧
          (wiredRecord { error := error, data := some data } outcome st).takeHomeMonthly
            = data.Take_Home_Pay_Monthly__c.getD 0 ∧
          (wiredRecord { error := error, data := some data } outcome st).taxCalls
            = st.taxCalls) ∧
      (data.Salary__c.getD 0 > 0 ∧ data.Take_Home_Pay_Yearly__c.getD 0 = 0 →
        wiredRecord { error := error, data := some data } outcome st =
          calculateTakeHome outcome
            { st with salary := data.Salary__c.getD 0,
                      federalTax := data.Federal_Tax__c.getD 0,
                      socialSecurityTax := data.Social_Security_Tax__c.getD 0,
                      medicareTax := data.Medicare_Tax__c.getD 0,
                      takeHomeYearly := data.Take_Home_Pay_Yearly__c.getD 0,
                      takeHomeMonthly := data.Take_Home_Pay_Monthly__c.getD 0 }) ∧
      (st.selectedMethod = "client" →
        ((wiredRecord { error := error, data := some data } outcome st).taxCalls ≠ st.taxCalls ↔
          data.Salary__c.getD 0 > 0 ∧ data.Take_Home_Pay_Yearly__c.getD 0 = 0)) := by
  rw [wiredRecord_data]
  refine ⟨?_, ?_, ?_⟩
  · intro h
    rw [if_neg h]
    exact ⟨rfl, rfl, rfl, rfl, rfl, rfl, rfl⟩
  · intro h
    rw [if_pos h]
  · intro hm
    by_cases h : data.Salary__c.getD 0 > 0 ∧ data.Take_Home_Pay_Yearly__c.getD 0 = 0
    · rw [if_pos h,
        calculateTakeHome_client outcome
          { st with salary := data.Salary__c.getD 0,
                    federalTax := data.Federal_Tax__c.getD 0,
                    socialSecurityTax := data.Social_Security_Tax__c.getD 0,
                    medicareTax := data.Medicare_Tax__c.getD 0,
                    takeHomeYearly := data.Take_Home_Pay_Yearly__c.getD 0,
                    takeHomeMonthly := data.Take_Home_Pay_Monthly__c.getD 0 } h.1 hm]
      simp [calculateClientSide, h]
    · rw [if_neg h]
      simp [h]

theorem C24_wiredRecord_witness :
    (wiredRecord
        { error := none,
          data := some { Salary__c := some 85000, Federal_Tax__c := some 12000,
                         Social_Security_Tax__c := some 5270,
                         Medicare_Tax__c := some (12325 / 10),
                         Take_Home_Pay_Yearly__c := some (664975 / 10),
                         Take_Home_Pay_Monthly__c := some (554146 / 100) } }
        (ServerOutcome.rejected { bodyMessage := none, message := none })
        (initial none)).takeHomeMonthly = 554146 / 100 :=
  ((C24_wiredRecord
      { Salary__c := some 85000, Federal_Tax__c := some 12000,
        Social_Security_Tax__c := some 5270, Medicare_Tax__c := some (12325 / 10),
        Take_Home_Pay_Yearly__c := some (664975 / 10),
        Take_Home_Pay_Monthly__c := some (554146 / 100) }
      none (ServerOutcome.rejected { bodyMessage := none, message := none })
      (initial none)).1 (by norm_num)).2.2.2.2.2.1

end SalaryCalculator

/-! ## The tiers add up to the taxable income -/

namespace SalaryCalculator

end SalaryCalculator

/-! ## The two tables above the boundary, the delegated response, the loop step by step -/

namespace JS

end JS

namespace TakeHomePayEstimator

end TakeHomePayEstimator

namespace SalaryCalculator

/-- C28: the fields `totalTax`, `takeHomeBiWeekly` and `takeHomeWeekly` of the
delegated response do not reach the component: two responses that agree on
`federalTax`, `socialSecurityTax`, `medicareTax`, `takeHomeYearly` and
`takeHomeMonthly` give the same state through `calculateServerSide` and
through `calculateTakeHome`, and the displayed total tax, bi-weekly and
weekly figures are formatted from the state, from
`federalTax + socialSecurityTax + medicareTax`, `takeHomeYearly / 26` and
`takeHomeYearly / 52`. -/
theorem C28_unused_response_fields (r₁ r₂ : Response) (st : State) (format : ℚ → String)
    (hf : r₁.federalTax = r₂.federalTax) (hs : r₁.socialSecurityTax = r₂.socialSecurityTax)
    (hm : r₁.medicareTax = r₂.medicareTax) (hy : r₁.takeHomeYearly = r₂.takeHomeYearly)
    (hmo : r₁.takeHomeMonthly = r₂.takeHomeMonthly) :
    calculateServerSide (ServerOutcome.resolved r₁) st =
        calculateServerSide (ServerOutcome.resolved r₂) st ∧
      calculateTakeHome (ServerOutcome.resolved r₁) st =
        calculateTakeHome (ServerOutcome.resolved r₂) st ∧
      formattedTotalTax format (calculateTakeHome (ServerOutcome.resolved r₁) st) =
        formatCurrency format
          ((calculateTakeHome (ServerOutcome.resolved r₁) st).federalTax +
            (calculateTakeHome (ServerOutcome.resolved r₁) st).socialSecurityTax +
            (calculateTakeHome (ServerOutcome.resolved r₁) st).medicareTax) ∧
      formattedBiWeeklyTakeHome format (calculateTakeHome (ServerOutcome.resolved r₁) st) =
        formatCurrency format
          ((calculateTakeHome (ServerOutcome.resolved r₁) st).takeHomeYearly / 26) ∧
      formattedWeeklyTakeHome format (calculateTakeHome (ServerOutcome.resolved r₁) st) =
        formatCurrency format
          ((calculateTakeHome (ServerOutcome.resolved r₁) st).takeHomeYearly / 52) ∧
      formattedTotalTax format (calculateTakeHome (ServerOutcome.resolved r₁) st) =
        formattedTotalTax format (calculateTakeHome (ServerOutcome.resolved r₂) st) ∧
      formattedBiWeeklyTakeHome format (calculateTakeHome (ServerOutcome.resolved r₁) st) =
        formattedBiWeeklyTakeHome format (calculateTakeHome (ServerOutcome.resolved r₂) st) ∧
      formattedWeeklyTakeHome format (calculateTakeHome (ServerOutcome.resolved r₁) st) =
        formattedWeeklyTakeHome format (calculateTakeHome (ServerOutcome.resolved r₂) st) := by
  have h1 : calculateServerSide (ServerOutcome.resolved r₁) st =
      calculateServerSide (ServerOutcome.resolved r₂) st := by
    simp only [calculateServerSide, hf, hs, hm, hy, hmo]
  have h2 : calculateTakeHome (ServerOutcome.resolved r₁) st =
      calculateTakeHome (ServerOutcome.resolved r₂) st := by
    simp only [calculateTakeHome, calculateServerSide, hf, hs, hm, hy, hmo]
  refine ⟨h1, h2, rfl, rfl, rfl, ?_, ?_, ?_⟩ <;> rw [h2]

theorem C28_unused_response_fields_witness :
    calculateTakeHome
        (ServerOutcome.resolved
          { federalTax := some 15000, socialSecurityTax := some 6200, medicareTax := some 1450,
            totalTax := some 22650, takeHomeYearly := some 77350,
            takeHomeMonthly := some (644583 / 100), takeHomeBiWeekly := some 2975,
            takeHomeWeekly := some (14875 / 10) })
        { initial none with salary := 100000, selectedMethod := "server" } =
      calculateTakeHome
        (ServerOutcome.resolved
          { federalTax := some 15000, socialSecurityTax := some 6200, medicareTax := some 1450,
            totalTax := some 1, takeHomeYearly := some 77350,
            takeHomeMonthly := some (644583 / 100), takeHomeBiWeekly := none,
            takeHomeWeekly := some 0 })
        { initial none with salary := 100000, selectedMethod := "server" } :=
  (C28_unused_response_fields _ _ _ (fun _ => "") rfl rfl rfl rfl rfl).2.1

/-- C29: `calculateTakeHome` does not leave the component calculating: from
every state with `isCalculating` false, for every salary, either method and
whatever the delegated call does, `isCalculating` is false when it has
completed. -/
theorem C29_not_left_calculating (st : State) (outcome : ServerOutcome)
    (h : st.isCalculating = false) : (calculateTakeHome outcome st).isCalculating = false := by
  unfold calculateTakeHome
  split_ifs with hs
  · simpa [resetCalculations] using h
  · rfl

theorem C29_not_left_calculating_witness :
    (calculateTakeHome (ServerOutcome.resolvedNull { bodyMessage := none, message := none })
      { initial none with salary := 100000, selectedMethod := "server" }).isCalculating = false ∧
    (calculateTakeHome (ServerOutcome.resolvedNull { bodyMessage := none, message := none })
      (initial none)).isCalculating = false :=
  ⟨C29_not_left_calculating _ _ rfl, C29_not_left_calculating _ _ rfl⟩

end SalaryCalculator
